import Mathlib

/-!
Verification of the stock-market protocol test harness scripts.

This file shallowly embeds the message model, the response correlators
(`wait_for_response` of `improved_test.py` and of `corrected_test.py`),
the per-client statistics updates of `corrected_test.py`,
`improved_test.py` and `demo_simulation_5min.py`, the report-rate
computations of all report generators, and the disconnect routines.
Inbound traffic during one correlated wait is modelled as the finite
list of messages popped from the session inbox before the deadline
elapses; each iteration of the Python polling loop pops exactly one
message, so the loop is a structural recursion over that list.
-/

namespace StockMarket

/-- Message kinds appearing in the scripts' protocol dictionaries
(`data.get("type")`).  `UNKNOWN` stands for any other string. -/
inductive MsgType where
  | LOGIN
  | LOGIN_OK
  | ORDER
  | ORDER_ACK
  | FILL
  | ERROR
  | TICKER
  | INVENTORY_UPDATE
  | PRODUCTION_OK
  | PRODUCTION_UPDATE
  | PING
  | PONG
  | OFFER
  | TIMEOUT
  | UNKNOWN
  deriving DecidableEq, Repr

/-- Order side strings `"BUY"` / `"SELL"`. -/
inductive Side where
  | BUY
  | SELL
  deriving DecidableEq, Repr

/-- One inbound protocol message (a Python dict).  Fields the scripts read
with `data.get(...)`: an absent key yields `none`, and `fillPrice` /
`fillQty` are read with default `0` (`data.get("fillPrice", 0)`).
`side = none` models a FILL whose side key is absent or is neither
`"BUY"` nor `"SELL"` (the code compares against exactly those strings).
Payload keys none of the modelled code paths inspect (balances,
inventory snapshots, ticker quotes) are not carried. -/
structure Message where
  type : MsgType
  clOrdID : Option String := none
  side : Option Side := none
  fillPrice : ℚ := 0
  fillQty : ℚ := 0
  status : Option String := none
  deriving DecidableEq, Repr

/-- Result of a correlated wait.  `msg m` is an ordinary returned message;
`timeout r` is the synthetic `TIMEOUT` dict, where `r` models the
optional `"received"` key: `improved_test.py` returns
`{"type": "TIMEOUT", ..., "received": received_messages}` (`some` list),
while `corrected_test.py` returns a TIMEOUT dict with no such key
(`none`). -/
inductive WaitResult where
  | msg (m : Message)
  | timeout (received : Option (List Message))
  deriving DecidableEq, Repr

/-- The `"type"` key of the value a wait returns: a returned message's own
kind, or `TIMEOUT` for the synthetic timeout dict (this is what
`response.get("type")` yields at the call sites). -/
def WaitResult.rtype : WaitResult → MsgType
  | .msg m => m.type
  | .timeout _ => .TIMEOUT

/-- Python truthiness of the `order_id : str | None` parameter: the guard
`if order_id:` is false both for `None` and for the empty string. -/
def strTruthy : Option String → Bool
  | none => false
  | some s => s ≠ ""

namespace Improved

/-- `ImprovedTradingClient.wait_for_response` (improved_test.py lines
147–191).  `queue` is the list of messages popped from
`self.message_queue` before the deadline elapses, in arrival order;
`received` accumulates (reversed) the messages appended to
`received_messages`.  Each popped message is appended to
`received_messages` first; then: a message of an expected kind is
returned if no truthy `order_id` was given or its `clOrdID` equals
`order_id`, and is otherwise skipped; an `ERROR` of an unexpected kind
is returned; `TICKER` / `INVENTORY_UPDATE` are skipped as background;
any other kind is returned only when `expected_types` is empty, and is
otherwise skipped (the `else` arm returns only `if not expected_types:`).
Exhausting `queue` models the deadline elapsing, producing the synthetic
TIMEOUT dict that carries `received_messages`. -/
def wait_for_response (expected : List MsgType) (order_id : Option String) :
    List Message → List Message → WaitResult
  | [], received => .timeout (some received.reverse)
  | m :: rest, received =>
    if m.type ∈ expected then
      if strTruthy order_id then
        if m.clOrdID = order_id then .msg m
        else wait_for_response expected order_id rest (m :: received)
      else .msg m
    else if m.type = .ERROR then .msg m
    else if m.type = .TICKER ∨ m.type = .INVENTORY_UPDATE then
      wait_for_response expected order_id rest (m :: received)
    else if expected = [] then .msg m
    else wait_for_response expected order_id rest (m :: received)

end Improved

namespace Corrected

/-- `CorrectedTestClient.wait_for_response` (corrected_test.py lines
104–127).  Same inbox model, but there is no `order_id` parameter and no
`received_messages` accumulator: an expected kind is returned at once,
an `ERROR` is returned, `TICKER` / `INVENTORY_UPDATE` are skipped, any
other kind is returned ("this might be our response"), and the deadline
produces a TIMEOUT dict that carries no observed-message list. -/
def wait_for_response (expected : List MsgType) : List Message → WaitResult
  | [] => .timeout none
  | m :: rest =>
    if m.type ∈ expected then .msg m
    else if m.type = .ERROR then .msg m
    else if m.type = .TICKER ∨ m.type = .INVENTORY_UPDATE then
      wait_for_response expected rest
    else .msg m

end Corrected

/-- Classification of the strings appended to a client's `self.errors`
list, distinguished by their literal prefixes in the source:
`"Order failed: ..."`, `"Order timeout: ..."` (only in
corrected_test.py) and `"Production failed: ..."`. -/
inductive ErrorKind where
  | orderFailed
  | orderTimeout
  | productionFailed
  deriving DecidableEq, Repr

/-- Number of entries of kind `k` in an errors list. -/
def errorCount (k : ErrorKind) (es : List ErrorKind) : ℕ :=
  (es.filter fun e => e = k).length

namespace Corrected

/-- Counter attributes of `CorrectedTestClient` (corrected_test.py lines
37–41). -/
structure Stats where
  orders_sent : ℕ := 0
  orders_success : ℕ := 0
  productions_sent : ℕ := 0
  productions_success : ℕ := 0
  errors : List ErrorKind := []
  deriving DecidableEq, Repr

/-- `CorrectedTestClient.send_order` (corrected_test.py lines 133–168).
The increment of `orders_sent` sits outside the `if self.websocket:`
guard, so it is unconditional.  `queue` is the inbound traffic during
the subsequent wait.  `ORDER_ACK` / `FILL` count a success; `ERROR`
appends an order-failed entry; any other outcome (the synthetic TIMEOUT
or an unexpected returned message) appends an order-timeout entry.
Returns the updated counters and the boolean result. -/
def send_order (s : Stats) (queue : List Message) : Stats × Bool :=
  let s1 : Stats := { s with orders_sent := s.orders_sent + 1 }
  let response := wait_for_response [.ORDER_ACK, .FILL, .ERROR] queue
  if response.rtype = .ORDER_ACK ∨ response.rtype = .FILL then
    ({ s1 with orders_success := s1.orders_success + 1 }, true)
  else if response.rtype = .ERROR then
    ({ s1 with errors := s1.errors ++ [.orderFailed] }, false)
  else
    ({ s1 with errors := s1.errors ++ [.orderTimeout] }, false)

/-- `CorrectedTestClient.send_production` (corrected_test.py lines
170–200).  `productions_sent` increments unconditionally;
`PRODUCTION_OK` / `INVENTORY_UPDATE` count a success; `ERROR` appends a
production-failed entry; a TIMEOUT records nothing and returns `True`
("might be normal"); any other returned message also records nothing
and returns `True`. -/
def send_production (s : Stats) (queue : List Message) : Stats × Bool :=
  let s1 : Stats := { s with productions_sent := s.productions_sent + 1 }
  let response := wait_for_response [.PRODUCTION_OK, .INVENTORY_UPDATE, .ERROR] queue
  if response.rtype = .PRODUCTION_OK ∨ response.rtype = .INVENTORY_UPDATE then
    ({ s1 with productions_success := s1.productions_success + 1 }, true)
  else if response.rtype = .ERROR then
    ({ s1 with errors := s1.errors ++ [.productionFailed] }, false)
  else
    (s1, true)

/-- One client operation of `CorrectedTestClient` together with the
inbound traffic observed during its response wait. -/
inductive Op where
  | order (queue : List Message)
  | production (queue : List Message)

/-- Apply one operation to the client counters. -/
def step (s : Stats) : Op → Stats
  | .order queue => (send_order s queue).1
  | .production queue => (send_production s queue).1

/-- Run a `CorrectedTestClient` from its freshly constructed counters
through a sequence of operations. -/
def run (ops : List Op) : Stats :=
  ops.foldl step {}

end Corrected

namespace Improved

/-- Counter attributes of `ImprovedTradingClient` (improved_test.py lines
43–54). -/
structure Stats where
  orders_sent : ℕ := 0
  orders_success : ℕ := 0
  productions_sent : ℕ := 0
  productions_success : ℕ := 0
  errors : List ErrorKind := []
  ticker_count : ℕ := 0
  fill_count : ℕ := 0
  deriving DecidableEq, Repr

/-- `ImprovedTradingClient.send_order` (improved_test.py lines 208–245).
Everything is guarded by `if self.websocket:`; a client with no
websocket returns `False` and changes nothing.  Otherwise `orders_sent`
increments and the wait runs with the freshly generated `order_id`:
`ORDER_ACK` / `FILL` count a success; `ERROR` appends an order-failed
entry; any other outcome ("response unclear") records nothing and
returns `False`. -/
def send_order (hasWs : Bool) (s : Stats) (order_id : String)
    (queue : List Message) : Stats × Bool :=
  if hasWs then
    let s1 : Stats := { s with orders_sent := s.orders_sent + 1 }
    let response := wait_for_response [.ORDER_ACK, .FILL, .ERROR] (some order_id) queue []
    if response.rtype = .ORDER_ACK ∨ response.rtype = .FILL then
      ({ s1 with orders_success := s1.orders_success + 1 }, true)
    else if response.rtype = .ERROR then
      ({ s1 with errors := s1.errors ++ [.orderFailed] }, false)
    else
      (s1, false)
  else
    (s, false)

/-- `ImprovedTradingClient.send_production` (improved_test.py lines
247–278).  Guarded by `if self.websocket:`.  `INVENTORY_UPDATE` counts a
success; `ERROR` appends a production-failed entry; any other outcome
(TIMEOUT included) increments `productions_success` anyway
(`# Assume success`) and returns `True`. -/
def send_production (hasWs : Bool) (s : Stats) (queue : List Message) :
    Stats × Bool :=
  if hasWs then
    let s1 : Stats := { s with productions_sent := s.productions_sent + 1 }
    let response := wait_for_response [.INVENTORY_UPDATE, .ERROR] none queue []
    if response.rtype = .INVENTORY_UPDATE then
      ({ s1 with productions_success := s1.productions_success + 1 }, true)
    else if response.rtype = .ERROR then
      ({ s1 with errors := s1.errors ++ [.productionFailed] }, false)
    else
      ({ s1 with productions_success := s1.productions_success + 1 }, true)
  else
    (s, false)

end Improved

namespace Adv

/-- The `self.stats` dict of `AdvancedTradingClient`
(demo_simulation_5min.py lines 52–65).  `errors` stores the ERROR
message dicts themselves; `session_start` / `last_activity` are
wall-clock timestamps outside this embedding's scope. -/
structure Stats where
  orders_sent : ℕ := 0
  orders_successful : ℕ := 0
  orders_filled : ℕ := 0
  productions_sent : ℕ := 0
  productions_successful : ℕ := 0
  total_profit : ℚ := 0
  tickers_received : ℕ := 0
  fills_received : ℕ := 0
  offers_received : ℕ := 0
  errors : List Message := []
  deriving DecidableEq, Repr

/-- `AdvancedTradingClient` state relevant to the claims: the stats dict,
the `pending_orders` dict (clOrdID mapped to its `'status'` value) and
whether `self.websocket` is set.  `market_data` and `inventory` caches
are read by no modelled path. -/
structure Client where
  hasWs : Bool := true
  stats : Stats := {}
  pending : List (String × Option String) := []
  deriving DecidableEq, Repr

/-- Overwrite the `'status'` value of the first binding of `key`
(dict-style update; generated order ids are unique per client). -/
def setStatus : List (String × Option String) → String → Option String →
    List (String × Option String)
  | [], _, _ => []
  | (k, v) :: rest, key, st =>
    if k = key then (k, st) :: rest else (k, v) :: setStatus rest key st

/-- Dict assignment `pending_orders[key] = {... 'status': st ...}`:
replace an existing binding in place, else append. -/
def insertPending (p : List (String × Option String)) (key : String)
    (st : Option String) : List (String × Option String) :=
  if (p.lookup key).isSome then setStatus p key st else p ++ [(key, st)]

/-- `AdvancedTradingClient._process_fill` (demo_simulation_5min.py lines
173–187): increments `orders_filled` and adds `fillPrice * fillQty` to
`total_profit` on a SELL fill, subtracts it on a BUY fill, and leaves
profit untouched for any other `side` value. -/
def process_fill (st : Stats) (m : Message) : Stats :=
  let st1 : Stats := { st with orders_filled := st.orders_filled + 1 }
  match m.side with
  | some .SELL => { st1 with total_profit := st1.total_profit + m.fillPrice * m.fillQty }
  | some .BUY => { st1 with total_profit := st1.total_profit - m.fillPrice * m.fillQty }
  | none => st1

/-- `AdvancedTradingClient._process_order_ack` (demo_simulation_5min.py
lines 198–206): if the ack's `clOrdID` is a key of `pending_orders`, its
stored status is overwritten, and `orders_successful` increments exactly
when the new status is `'PENDING'`. -/
def process_order_ack (c : Client) (m : Message) : Client :=
  match m.clOrdID with
  | some key =>
    if (c.pending.lookup key).isSome then
      let c1 : Client := { c with pending := setStatus c.pending key m.status }
      if m.status = some "PENDING" then
        { c1 with stats := { c1.stats with orders_successful := c1.stats.orders_successful + 1 } }
      else c1
    else c
  | none => c

/-- The message-dispatch body of `AdvancedTradingClient.message_listener`
(demo_simulation_5min.py lines 136–151): classification counters plus
the per-kind processors.  `_process_ticker`'s market-data cache,
`_process_offer`'s logging and the `INVENTORY_UPDATE` inventory snapshot
touch no modelled counter. -/
def on_message (c : Client) (m : Message) : Client :=
  match m.type with
  | .TICKER => { c with stats := { c.stats with tickers_received := c.stats.tickers_received + 1 } }
  | .FILL => { c with stats := process_fill { c.stats with fills_received := c.stats.fills_received + 1 } m }
  | .OFFER => { c with stats := { c.stats with offers_received := c.stats.offers_received + 1 } }
  | .ORDER_ACK => process_order_ack c m
  | .ERROR => { c with stats := { c.stats with errors := c.stats.errors ++ [m] } }
  | _ => c

/-- `AdvancedTradingClient.send_order` (demo_simulation_5min.py lines
212–243): the pending-order record is stored with status `'SENT'`
before the websocket check; with a websocket the frame is sent and
`orders_sent` increments, returning `True`; otherwise `False`.  No
response is awaited here. -/
def send_order (c : Client) (order_id : String) : Client × Bool :=
  let c1 : Client := { c with pending := insertPending c.pending order_id (some "SENT") }
  if c.hasWs then
    ({ c1 with stats := { c1.stats with orders_sent := c1.stats.orders_sent + 1 } }, true)
  else
    (c1, false)

/-- `AdvancedTradingClient.send_production` (demo_simulation_5min.py
lines 245–259): with a websocket, `productions_sent` and
`productions_successful` increment together (`# Assume success`) and the
call returns `True`; without one, nothing changes and it returns
`False`.  No server response is consulted. -/
def send_production (c : Client) : Client × Bool :=
  if c.hasWs then
    ({ c with stats := { c.stats with
        productions_sent := c.stats.productions_sent + 1,
        productions_successful := c.stats.productions_successful + 1 } }, true)
  else
    (c, false)

/-- One state-mutating operation of `AdvancedTradingClient`: an outbound
order, an outbound production, or the listener processing one inbound
message. -/
inductive Op where
  | order (order_id : String)
  | production
  | message (m : Message)

/-- Apply one operation to the client state. -/
def step (c : Client) : Op → Client
  | .order oid => (send_order c oid).1
  | .production => (send_production c).1
  | .message m => on_message c m

/-- Run an `AdvancedTradingClient` (with or without a websocket) from its
freshly constructed state through a sequence of operations. -/
def run (ws : Bool) (ops : List Op) : Client :=
  ops.foldl step { hasWs := ws }

/-- The `'production_success_rate'` entry of
`AdvancedTradingClient.get_performance_summary`
(demo_simulation_5min.py line 356):
`productions_successful / max(1, productions_sent)`. -/
def production_success_rate (st : Stats) : ℚ :=
  (st.productions_successful : ℚ) / (max 1 st.productions_sent : ℕ)

end Adv

/-- A success-rate line of a final report: a percentage, the literal
`"N/A"` text, or a raised `ZeroDivisionError`. -/
inductive RateReport where
  | pct (r : ℚ)
  | notApplicable
  | divisionError
  deriving DecidableEq, Repr

namespace Corrected

/-- The order-success-rate line of `run_corrected_test`
(corrected_test.py line 319): the conditional expression evaluates the
dividing f-string only when `total_orders_sent > 0` and logs `"N/A"`
otherwise, so no division by zero is ever executed. -/
def order_success_rate (succ sent : ℕ) : RateReport :=
  if 0 < sent then .pct ((succ : ℚ) / (sent : ℚ) * 100) else .notApplicable

/-- The production-success-rate line of `run_corrected_test`
(corrected_test.py line 322), guarded the same way. -/
def production_success_rate (succ sent : ℕ) : RateReport :=
  if 0 < sent then .pct ((succ : ℚ) / (sent : ℚ) * 100) else .notApplicable

end Corrected

namespace TradingSim

/-- The successful-orders percentage of
`TradingSimulation.generate_final_report` (trading_simulation.py line
487): `total_successful/total_orders*100` with no guard on
`total_orders`, so Python raises `ZeroDivisionError` when no orders were
placed. -/
def success_pct (total_successful total_orders : ℕ) : RateReport :=
  if total_orders = 0 then .divisionError
  else .pct ((total_successful : ℚ) / (total_orders : ℚ) * 100)

/-- The failed-orders percentage of the same report (line 488), equally
unguarded. -/
def failed_pct (total_failed total_orders : ℕ) : RateReport :=
  if total_orders = 0 then .divisionError
  else .pct ((total_failed : ℚ) / (total_orders : ℚ) * 100)

/-- Lifecycle flags touched by `TradingClient.disconnect`
(trading_simulation.py lines 130–136): the client's `running` flag,
whether `self.websocket` is set, whether that websocket has been closed,
and `self.state.is_connected`. -/
structure SessionState where
  running : Bool
  wsPresent : Bool
  wsClosed : Bool
  is_connected : Bool
  deriving DecidableEq, Repr

/-- `TradingClient.disconnect`: set `running = False`; if a websocket is
present, close it (closing an already-closed websockets connection is a
no-op) and set `is_connected = False`. -/
def disconnect (s : SessionState) : SessionState :=
  let s1 : SessionState := { s with running := false }
  if s1.wsPresent then { s1 with wsClosed := true, is_connected := false } else s1

end TradingSim

namespace Corrected

/-- Lifecycle flags touched by `CorrectedTestClient.disconnect`
(corrected_test.py lines 252–260). -/
structure SessionState where
  running : Bool
  wsPresent : Bool
  wsClosed : Bool
  deriving DecidableEq, Repr

/-- `CorrectedTestClient.disconnect`: set `running = False`; if a
websocket is present, close it inside a `try/except` (a repeated close
of an already-closed connection is a no-op and raises nothing). -/
def disconnect (s : SessionState) : SessionState :=
  let s1 : SessionState := { s with running := false }
  if s1.wsPresent then { s1 with wsClosed := true } else s1

end Corrected

/-- An ORDER_ACK answering order `"A"`. -/
def ackA : Message := { type := .ORDER_ACK, clOrdID := some "A" }

/-- An ORDER_ACK answering order `"B"`. -/
def ackB : Message := { type := .ORDER_ACK, clOrdID := some "B" }

/-- An ERROR carrying the correlation id of another order. -/
def errOther : Message := { type := .ERROR, clOrdID := some "B" }

/-- A background market-data TICKER broadcast. -/
def tickerMsg : Message := { type := .TICKER }

/-- A PONG: neither expected by an order wait, nor ERROR, nor a
background kind. -/
def pongMsg : Message := { type := .PONG }

/-- The FILL of the C6 scenario: `clOrdID "A"`, BUY side, `fillPrice`
10.0, `fillQty` 1. -/
def fillBuyA : Message :=
  { type := .FILL, clOrdID := some "A", side := some .BUY, fillPrice := 10, fillQty := 1 }

/-- A SELL fill at price 10 for quantity 1. -/
def fillSellA : Message :=
  { type := .FILL, clOrdID := some "A", side := some .SELL, fillPrice := 10, fillQty := 1 }

/-- C1.  A correlated wait in `improved_test.py` with a non-empty
`order_id` only ever returns a message of an accepted kind when that
message's `clOrdID` equals the requested id exactly; in particular it
never returns a response bearing a different (hence in particular a
different non-empty) correlation id of an accepted kind, regardless of
the arrival order of the queued messages. -/
theorem C1_correlated_wait_no_crosstalk (expected : List MsgType) (oid : String)
    (hoid : oid ≠ "") (queue acc : List Message) (m : Message)
    (hres : Improved.wait_for_response expected (some oid) queue acc = .msg m)
    (hkind : m.type ∈ expected) :
    m.clOrdID = some oid := by
  induction queue generalizing acc with
  | nil =>
    simp [Improved.wait_for_response] at hres
  | cons m' rest ih =>
    rw [Improved.wait_for_response] at hres
    have htruthy : strTruthy (some oid) = true := by
      simp [strTruthy, hoid]
    by_cases h1 : m'.type ∈ expected
    · rw [if_pos h1, htruthy, if_pos rfl] at hres
      by_cases h2 : m'.clOrdID = some oid
      · rw [if_pos h2] at hres
        cases hres
        exact h2
      · rw [if_neg h2] at hres
        exact ih _ hres
    · rw [if_neg h1] at hres
      by_cases h3 : m'.type = MsgType.ERROR
      · rw [if_pos h3] at hres
        cases hres
        exact absurd hkind h1
      · rw [if_neg h3] at hres
        by_cases h4 : m'.type = MsgType.TICKER ∨ m'.type = MsgType.INVENTORY_UPDATE
        · rw [if_pos h4] at hres
          exact ih _ hres
        · rw [if_neg h4] at hres
          by_cases h5 : expected = []
          · rw [if_pos h5] at hres
            cases hres
            rw [h5] at hkind
            exact absurd hkind (List.not_mem_nil _)
          · rw [if_neg h5] at hres
            exact ih _ hres

/-- C1 witness: the two-concurrent-orders scenario.  The server answers
order `"B"` first and order `"A"` second; the wait correlated on `"A"`
returns the response for `"A"` anyway, and the theorem applies to it. -/
theorem C1_correlated_wait_no_crosstalk_witness :
    ("A" : String) ≠ "" ∧
    Improved.wait_for_response [.ORDER_ACK] (some "A") [ackB, ackA] [] = .msg ackA ∧
    ackA.type ∈ [MsgType.ORDER_ACK] ∧
    ackA.clOrdID = some "A" :=
  ⟨by decide, by decide, by decide,
    C1_correlated_wait_no_crosstalk [.ORDER_ACK] "A" (by decide) [ackB, ackA] [] ackA
      (by decide) (by decide)⟩

/-- Helper: whenever the improved correlator times out, the carried list
is exactly the accumulator so far followed by every remaining queued
message — every popped message is observed. -/
theorem Improved.timeout_received (expected : List MsgType) (oid : Option String)
    (queue : List Message) : ∀ acc r,
    Improved.wait_for_response expected oid queue acc = .timeout r →
    r = some (acc.reverse ++ queue) := by
  induction queue with
  | nil =>
    intro acc r hres
    simp [Improved.wait_for_response] at hres
    simp [← hres]
  | cons m rest ih =>
    intro acc r hres
    rw [Improved.wait_for_response] at hres
    by_cases h1 : m.type ∈ expected
    · rw [if_pos h1] at hres
      by_cases h2 : strTruthy oid = true
      · rw [h2, if_pos rfl] at hres
        by_cases h3 : m.clOrdID = oid
        · rw [if_pos h3] at hres
          exact absurd hres (by simp)
        · rw [if_neg h3] at hres
          have := ih (m :: acc) r hres
          simpa using this
      · rw [Bool.not_eq_true] at h2
        rw [h2, if_neg (by simp)] at hres
        exact absurd hres (by simp)
    · rw [if_neg h1] at hres
      by_cases h3 : m.type = MsgType.ERROR
      · rw [if_pos h3] at hres
        exact absurd hres (by simp)
      · rw [if_neg h3] at hres
        by_cases h4 : m.type = MsgType.TICKER ∨ m.type = MsgType.INVENTORY_UPDATE
        · rw [if_pos h4] at hres
          have := ih (m :: acc) r hres
          simpa using this
        · rw [if_neg h4] at hres
          by_cases h5 : expected = []
          · rw [if_pos h5] at hres
            exact absurd hres (by simp)
          · rw [if_neg h5] at hres
            have := ih (m :: acc) r hres
            simpa using this

/-- Helper: the corrected correlator's synthetic TIMEOUT never carries an
observed-message list. -/
theorem Corrected.timeout_no_list (expected : List MsgType)
    (queue : List Message) : ∀ r,
    Corrected.wait_for_response expected queue = .timeout r → r = none := by
  induction queue with
  | nil =>
    intro r hres
    simp [Corrected.wait_for_response] at hres
    simp [← hres]
  | cons m rest ih =>
    intro r hres
    rw [Corrected.wait_for_response] at hres
    by_cases h1 : m.type ∈ expected
    · rw [if_pos h1] at hres
      exact absurd hres (by simp)
    · rw [if_neg h1] at hres
      by_cases h3 : m.type = MsgType.ERROR
      · rw [if_pos h3] at hres
        exact absurd hres (by simp)
      · rw [if_neg h3] at hres
        by_cases h4 : m.type = MsgType.TICKER ∨ m.type = MsgType.INVENTORY_UPDATE
        · rw [if_pos h4] at hres
          exact ih r hres
        · rw [if_neg h4] at hres
          exact absurd hres (by simp)

/-- C2 counterexample.  The claim covers both cited correlators, but the
one in `corrected_test.py` builds its TIMEOUT dict without any
observed-messages key: with a TICKER observed during the wait, the
result carries no list at all rather than the list of observed
messages. -/
theorem C2_cx_corrected_timeout_carries_nothing :
    Corrected.wait_for_response [.ORDER_ACK] [tickerMsg] = .timeout none ∧
    WaitResult.timeout none ≠ .timeout (some [tickerMsg]) := by
  decide

/-- C2 (amended).  In `improved_test.py`, a wait that ends in timeout
returns a synthetic TIMEOUT carrying exactly the messages observed
during the wait — the empty list when none were observed (instantiate
`queue := []`); in `corrected_test.py` the TIMEOUT carries no
observed-messages list. -/
theorem C2_amended_timeout_carries_observed :
    (∀ expected oid queue r,
        Improved.wait_for_response expected oid queue [] = .timeout r →
        r = some queue)
    ∧ (∀ expected queue r,
        Corrected.wait_for_response expected queue = .timeout r → r = none) := by
  constructor
  · intro expected oid queue r hres
    have := Improved.timeout_received expected oid queue [] r hres
    simpa using this
  · intro expected queue r hres
    exact Corrected.timeout_no_list expected queue r hres

/-- C2 witness: a wait for an ORDER_ACK that observes only a TICKER
before the deadline times out carrying exactly that TICKER. -/
theorem C2_amended_timeout_carries_observed_witness :
    Improved.wait_for_response [.ORDER_ACK] none [tickerMsg] [] =
      .timeout (some [tickerMsg]) ∧
    (some [tickerMsg] : Option (List Message)) = some [tickerMsg] :=
  ⟨by decide,
    C2_amended_timeout_carries_observed.1 [.ORDER_ACK] none [tickerMsg]
      (some [tickerMsg]) (by decide)⟩

/-- C3 counterexample.  At the real call site of
`ImprovedTradingClient.send_order` the accepted kinds are
`[ORDER_ACK, FILL, ERROR]` and a correlation id is requested; a popped
ERROR carrying a different clOrdID then matches the accepted-kinds
branch first, fails the id comparison, and is skipped instead of being
returned immediately — the wait ends in TIMEOUT, not in the ERROR. -/
theorem C3_cx_mismatched_error_skipped :
    errOther.type = .ERROR ∧
    Improved.wait_for_response [.ORDER_ACK, .FILL, .ERROR] (some "ORD-A")
      [errOther] [] = .timeout (some [errOther]) ∧
    WaitResult.timeout (some [errOther]) ≠ .msg errOther := by
  decide

/-- C3 (amended).  A popped ERROR is returned immediately by
`corrected_test.py`'s correlator unconditionally, and by
`improved_test.py`'s correlator whenever ERROR is not among the accepted
kinds or no truthy correlation id was requested; but when ERROR is among
the accepted kinds and a correlation id is requested, the improved
correlator returns the ERROR only if its clOrdID matches and otherwise
skips it. -/
theorem C3_amended_error_preemption :
    (∀ (expected : List MsgType) (rest : List Message) (e : Message),
        e.type = .ERROR →
        Corrected.wait_for_response expected (e :: rest) = .msg e)
    ∧ (∀ (expected : List MsgType) (oid : Option String) (rest acc : List Message)
        (e : Message), e.type = .ERROR → e.type ∉ expected →
        Improved.wait_for_response expected oid (e :: rest) acc = .msg e)
    ∧ (∀ (expected : List MsgType) (rest acc : List Message) (e : Message),
        e.type = .ERROR →
        Improved.wait_for_response expected none (e :: rest) acc = .msg e) := by
  refine ⟨?_, ?_, ?_⟩
  · intro expected rest e he
    rw [Corrected.wait_for_response]
    by_cases h1 : e.type ∈ expected
    · rw [if_pos h1]
    · rw [if_neg h1, if_pos he]
  · intro expected oid rest acc e he hnot
    rw [Improved.wait_for_response, if_neg hnot, if_pos he]
  · intro expected rest acc e he
    rw [Improved.wait_for_response]
    by_cases h1 : e.type ∈ expected
    · rw [if_pos h1]
      have : strTruthy none = false := rfl
      rw [this, if_neg (by simp)]
    · rw [if_neg h1, if_pos he]

/-- C3 witness: the corrected correlator returns a queued ERROR
immediately even while waiting for an ORDER_ACK. -/
theorem C3_amended_error_preemption_witness :
    errOther.type = .ERROR ∧
    Corrected.wait_for_response [.ORDER_ACK] [errOther, ackA] = .msg errOther :=
  ⟨by decide, C3_amended_error_preemption.1 [.ORDER_ACK] [ackA] errOther (by decide)⟩

/-- C4 counterexample.  With a non-empty accepted set, the improved
correlator's final `else` arm returns a message only `if not
expected_types:`, so an unexpected PONG popped while waiting for an
ORDER_ACK is dropped from the wait (it resurfaces only inside the
TIMEOUT's received list) instead of being returned to the caller. -/
theorem C4_cx_unexpected_dropped :
    pongMsg.type ∉ [MsgType.ORDER_ACK] ∧
    pongMsg.type ≠ .ERROR ∧
    pongMsg.type ≠ .TICKER ∧
    pongMsg.type ≠ .INVENTORY_UPDATE ∧
    Improved.wait_for_response [.ORDER_ACK] none [pongMsg] [] =
      .timeout (some [pongMsg]) ∧
    WaitResult.timeout (some [pongMsg]) ≠ .msg pongMsg := by
  decide

/-- C4 (amended).  A popped message of a kind neither accepted, nor
ERROR, nor background (TICKER / INVENTORY_UPDATE) is returned to the
caller by `corrected_test.py`'s correlator unconditionally; the
correlator of `improved_test.py` returns it only when the accepted set
is empty, and otherwise drops it from that wait. -/
theorem C4_amended_unexpected_surfaced :
    (∀ (expected : List MsgType) (rest : List Message) (m : Message),
        m.type ∉ expected → m.type ≠ .ERROR → m.type ≠ .TICKER →
        m.type ≠ .INVENTORY_UPDATE →
        Corrected.wait_for_response expected (m :: rest) = .msg m)
    ∧ (∀ (oid : Option String) (rest acc : List Message) (m : Message),
        m.type ≠ .ERROR → m.type ≠ .TICKER → m.type ≠ .INVENTORY_UPDATE →
        Improved.wait_for_response [] oid (m :: rest) acc = .msg m) := by
  constructor
  · intro expected rest m h1 h2 h3 h4
    rw [Corrected.wait_for_response, if_neg h1, if_neg h2,
      if_neg (by simp [h3, h4])]
  · intro oid rest acc m h2 h3 h4
    rw [Improved.wait_for_response, if_neg (by simp), if_neg h2,
      if_neg (by simp [h3, h4]), if_pos rfl]

/-- C4 witness: the corrected correlator surfaces an unexpected PONG to
the caller of an ORDER_ACK wait. -/
theorem C4_amended_unexpected_surfaced_witness :
    pongMsg.type ∉ [MsgType.ORDER_ACK] ∧
    Corrected.wait_for_response [.ORDER_ACK] [pongMsg] = .msg pongMsg :=
  ⟨by decide,
    C4_amended_unexpected_surfaced.1 [.ORDER_ACK] [] pongMsg (by decide)
      (by decide) (by decide) (by decide)⟩

/-- Helper: appending an entry of the counted kind increments the count. -/
theorem errorCount_append_same (k : ErrorKind) (es : List ErrorKind) :
    errorCount k (es ++ [k]) = errorCount k es + 1 := by
  simp [errorCount, List.filter_append]

/-- Helper: appending an entry of a different kind keeps the count. -/
theorem errorCount_append_other (k e : ErrorKind) (es : List ErrorKind)
    (h : ¬e = k) : errorCount k (es ++ [e]) = errorCount k es := by
  simp [errorCount, List.filter_append, h]

/-- The accounting invariant of `CorrectedTestClient`: every sent order
was classified into exactly one of success, recorded order failure, or
recorded order timeout. -/
def Corrected.accounted (s : Corrected.Stats) : Prop :=
  s.orders_sent = s.orders_success + errorCount .orderFailed s.errors
    + errorCount .orderTimeout s.errors

/-- Helper: each client operation preserves the accounting invariant. -/
theorem Corrected.step_accounted (s : Corrected.Stats) (op : Corrected.Op)
    (h : Corrected.accounted s) : Corrected.accounted (Corrected.step s op) := by
  unfold Corrected.accounted at h
  cases op with
  | order queue =>
    show Corrected.accounted (Corrected.send_order s queue).1
    unfold Corrected.accounted
    simp only [Corrected.send_order]
    split
    · simp only
      omega
    · split
      · simp only
        rw [errorCount_append_same, errorCount_append_other _ _ _ (by decide)]
        omega
      · simp only
        rw [errorCount_append_same, errorCount_append_other _ _ _ (by decide)]
        omega
  | production queue =>
    show Corrected.accounted (Corrected.send_production s queue).1
    unfold Corrected.accounted
    simp only [Corrected.send_production]
    split
    · simp only
      omega
    · split
      · simp only
        rw [errorCount_append_other _ _ _ (by decide),
          errorCount_append_other _ _ _ (by decide)]
        omega
      · simp only
        omega

/-- Helper: the accounting invariant holds along any run. -/
theorem Corrected.foldl_accounted (ops : List Corrected.Op) :
    ∀ s, Corrected.accounted s →
      Corrected.accounted (ops.foldl Corrected.step s) := by
  induction ops with
  | nil => intro s h; exact h
  | cons op rest ih =>
    intro s h
    exact ih _ (Corrected.step_accounted s op h)

/-- C5 counterexample.  The claim quantifies over every session, but the
demo client `AdvancedTradingClient` counts order successes only when an
ORDER_ACK with status PENDING arrives asynchronously and has no failed
or inconclusive counters at all: after one sent order with no ack
processed, its `orders_sent` is 1 while every outcome counter (ack-based
successes, received ERROR messages, and the nonexistent inconclusive
count 0) sums to 0. -/
theorem C5_cx_demo_counts_not_partitioned :
    (Adv.run true [.order "DEM-1"]).stats.orders_sent = 1 ∧
    (Adv.run true [.order "DEM-1"]).stats.orders_successful = 0 ∧
    (Adv.run true [.order "DEM-1"]).stats.errors = [] ∧
    (1 : ℕ) ≠ 0 + 0 + 0 := by
  decide

/-- C5 (amended).  For `CorrectedTestClient`, every sent order is
classified into exactly one outcome class — success, recorded order
failure (an `"Order failed"` errors entry), or recorded order timeout
(an `"Order timeout"` errors entry, the inconclusive class) — so at any
report time, after any sequence of order and production operations,
`orders_sent` equals the sum of the three counts.  The demo
`AdvancedTradingClient` does not maintain such a partition. -/
theorem C5_amended_corrected_counts_partition (ops : List Corrected.Op) :
    (Corrected.run ops).orders_sent =
      (Corrected.run ops).orders_success
      + errorCount .orderFailed (Corrected.run ops).errors
      + errorCount .orderTimeout (Corrected.run ops).errors := by
  have h0 : Corrected.accounted {} := by
    simp [Corrected.accounted, errorCount]
  exact Corrected.foldl_accounted ops {} h0

/-- The demo client right after sending the scenario's BUY order `"A"`
(websocket present, order recorded as pending). -/
def advAfterOrderA : Adv.Client := (Adv.send_order { hasWs := true } "A").1

/-- C6 counterexample.  In the only cited client that tracks profit
(demo_simulation_5min.py), processing `FILL{clOrdID="A", side=BUY,
fillPrice=10.0, fillQty=1}` after order `"A"` was sent decreases profit
by 10.0 as claimed but increments `orders_filled`, leaving
`orders_successful` unchanged at 0 — that counter moves only when an
ORDER_ACK with status PENDING arrives, so the scenario's
"orders_success increments by 1" fails there. -/
theorem C6_cx_fill_not_counted_successful :
    (Adv.on_message advAfterOrderA fillBuyA).stats.orders_successful
      = advAfterOrderA.stats.orders_successful ∧
    advAfterOrderA.stats.orders_successful = 0 ∧
    (Adv.on_message advAfterOrderA fillBuyA).stats.total_profit
      = advAfterOrderA.stats.total_profit - 10 ∧
    (Adv.on_message advAfterOrderA fillBuyA).stats.orders_filled
      = advAfterOrderA.stats.orders_filled + 1 := by
  refine ⟨by decide, by decide, ?_, by decide⟩
  norm_num [advAfterOrderA, Adv.on_message, Adv.process_fill, Adv.send_order,
    Adv.insertPending, fillBuyA]

/-- C6 (amended).  Profit tracking behaves exactly as claimed wherever it
exists: in the demo client every processed FILL changes `total_profit`
by exactly `fillPrice * fillQty` — added for a SELL fill, subtracted for
a BUY fill — and increments `orders_filled`; and in
`corrected_test.py`, an order answered by a FILL increments
`orders_success` by 1 (that client tracks no profit, and the demo
client's FILL processing leaves `orders_successful` untouched). -/
theorem C6_amended_fill_profit :
    (∀ (st : Adv.Stats) (m : Message), m.side = some .SELL →
        (Adv.process_fill st m).total_profit
          = st.total_profit + m.fillPrice * m.fillQty)
    ∧ (∀ (st : Adv.Stats) (m : Message), m.side = some .BUY →
        (Adv.process_fill st m).total_profit
          = st.total_profit - m.fillPrice * m.fillQty)
    ∧ (∀ (st : Adv.Stats) (m : Message),
        (Adv.process_fill st m).orders_filled = st.orders_filled + 1)
    ∧ (∀ (s : Corrected.Stats) (rest : List Message) (m : Message),
        m.type = .FILL →
        ((Corrected.send_order s (m :: rest)).1).orders_success
          = s.orders_success + 1) := by
  refine ⟨?_, ?_, ?_, ?_⟩
  · intro st m h
    simp [Adv.process_fill, h]
  · intro st m h
    simp [Adv.process_fill, h]
  · intro st m
    rcases hs : m.side with - | side
    · simp [Adv.process_fill, hs]
    · cases side <;> simp [Adv.process_fill, hs]
  · intro s rest m h
    simp [Corrected.send_order, Corrected.wait_for_response, h, WaitResult.rtype]

/-- C6 witness: the scenario FILL (BUY, price 10.0, qty 1) applied to
fresh statistics subtracts exactly 10.0 from the profit. -/
theorem C6_amended_fill_profit_witness :
    fillBuyA.side = some Side.BUY ∧
    (Adv.process_fill {} fillBuyA).total_profit
      = ({} : Adv.Stats).total_profit - fillBuyA.fillPrice * fillBuyA.fillQty :=
  ⟨rfl, C6_amended_fill_profit.2.1 {} fillBuyA rfl⟩

/-- C7.  The success-rate lines of `run_corrected_test` guard the
`sent = 0` case and log `"N/A"`, exactly as the claim states; but
`TradingSimulation.generate_final_report` computes
`total_successful/total_orders*100` (and the failed percentage) with no
guard, so a report over statistics whose orders-sent total is 0 raises
`ZeroDivisionError` instead of reporting "not applicable". -/
theorem C7_final_report_division_error :
    TradingSim.success_pct 0 0 = RateReport.divisionError ∧
    TradingSim.failed_pct 0 0 = RateReport.divisionError ∧
    Corrected.order_success_rate 0 0 = RateReport.notApplicable ∧
    Corrected.production_success_rate 0 0 = RateReport.notApplicable := by
  decide

/-- C8 counterexample.  In `ImprovedTradingClient.send_production`, a
wait that ends in the synthetic TIMEOUT falls into the `else` arm, which
executes `self.productions_success += 1  # Assume success`: starting
from fresh counters with no inbound traffic, the wait times out yet the
success counter becomes 1, so the timeout is recorded as a success, not
as an inconclusive outcome. -/
theorem C8_cx_production_timeout_counted_success :
    Improved.wait_for_response [.INVENTORY_UPDATE, .ERROR] none [] []
      = .timeout (some []) ∧
    (Improved.send_production true {} []).1.productions_success = 1 ∧
    ({} : Improved.Stats).productions_success = 0 := by
  decide

/-- C8 (amended).  A timed-out response wait is recorded as inconclusive
— neither counter nor errors entry — for productions in
`corrected_test.py` (whose `send_production` then returns `True`) and
for orders in `improved_test.py`; but `improved_test.py` counts a
production timeout as a success, and `corrected_test.py` records an
order timeout in its errors list. -/
theorem C8_amended_timeout_inconclusive :
    (∀ (s : Corrected.Stats) (queue : List Message),
        Corrected.wait_for_response [.PRODUCTION_OK, .INVENTORY_UPDATE, .ERROR]
          queue = .timeout none →
        (Corrected.send_production s queue).1.productions_success
            = s.productions_success ∧
        (Corrected.send_production s queue).1.errors = s.errors ∧
        (Corrected.send_production s queue).2 = true)
    ∧ (∀ (s : Improved.Stats) (oid : String) (queue : List Message)
        (r : Option (List Message)),
        Improved.wait_for_response [.ORDER_ACK, .FILL, .ERROR] (some oid)
          queue [] = .timeout r →
        (Improved.send_order true s oid queue).1.orders_success
            = s.orders_success ∧
        (Improved.send_order true s oid queue).1.errors = s.errors ∧
        (Improved.send_order true s oid queue).2 = false) := by
  constructor
  · intro s queue h
    refine ⟨?_, ?_, ?_⟩ <;>
      simp [Corrected.send_production, h, WaitResult.rtype]
  · intro s oid queue r h
    refine ⟨?_, ?_, ?_⟩ <;>
      simp [Improved.send_order, h, WaitResult.rtype]

/-- C8 witness: a production wait of the corrected client that sees no
traffic times out and leaves the success counter and errors list
untouched. -/
theorem C8_amended_timeout_inconclusive_witness :
    Corrected.wait_for_response [.PRODUCTION_OK, .INVENTORY_UPDATE, .ERROR] []
      = .timeout none ∧
    ((Corrected.send_production {} []).1.productions_success
        = ({} : Corrected.Stats).productions_success ∧
      (Corrected.send_production {} []).1.errors = ({} : Corrected.Stats).errors ∧
      (Corrected.send_production {} []).2 = true) :=
  ⟨by decide, C8_amended_timeout_inconclusive.1 {} [] (by decide)⟩

/-- C9.  Calling `disconnect` a second time is a no-op in both cited
clients: the running flag is already false, the websocket close of an
already-closed connection changes nothing, and (for
`trading_simulation.py`) `is_connected` is already false, so the repeat
call leaves the session state exactly as the first call left it and
raises no error. -/
theorem C9_disconnect_idempotent :
    (∀ s : Corrected.SessionState,
        Corrected.disconnect (Corrected.disconnect s) = Corrected.disconnect s)
    ∧ (∀ s : TradingSim.SessionState,
        TradingSim.disconnect (TradingSim.disconnect s) = TradingSim.disconnect s) := by
  constructor
  · intro s
    rcases s with ⟨r, wp, wc⟩
    cases wp <;> simp [Corrected.disconnect]
  · intro s
    rcases s with ⟨r, wp, wc, ic⟩
    cases wp <;> simp [TradingSim.disconnect]

/-- The always-successful-productions invariant of the demo client. -/
def Adv.prodInv (c : Adv.Client) : Prop :=
  c.stats.productions_successful = c.stats.productions_sent

/-- Helper: FILL processing leaves the production counters alone. -/
theorem Adv.process_fill_productions (st : Adv.Stats) (m : Message) :
    (Adv.process_fill st m).productions_successful = st.productions_successful ∧
    (Adv.process_fill st m).productions_sent = st.productions_sent := by
  rcases hs : m.side with - | side
  · simp [Adv.process_fill, hs]
  · cases side <;> simp [Adv.process_fill, hs]

/-- Helper: ORDER_ACK processing leaves the production counters alone. -/
theorem Adv.process_order_ack_productions (c : Adv.Client) (m : Message) :
    (Adv.process_order_ack c m).stats.productions_successful
        = c.stats.productions_successful ∧
    (Adv.process_order_ack c m).stats.productions_sent
        = c.stats.productions_sent := by
  rcases hk : m.clOrdID with - | key
  · simp [Adv.process_order_ack, hk]
  · simp only [Adv.process_order_ack, hk]
    split
    · split <;> simp
    · simp

/-- Helper: every demo-client operation preserves the invariant. -/
theorem Adv.step_prodInv (c : Adv.Client) (op : Adv.Op) (h : Adv.prodInv c) :
    Adv.prodInv (Adv.step c op) := by
  unfold Adv.prodInv at h
  cases op with
  | order oid =>
    show Adv.prodInv (Adv.send_order c oid).1
    unfold Adv.prodInv
    simp only [Adv.send_order]
    split <;> simpa using h
  | production =>
    show Adv.prodInv (Adv.send_production c).1
    unfold Adv.prodInv
    simp only [Adv.send_production]
    split
    · simpa using h
    · simpa using h
  | message m =>
    show Adv.prodInv (Adv.on_message c m)
    unfold Adv.prodInv
    unfold Adv.on_message
    split
    · simpa using h
    · have hp := Adv.process_fill_productions
        { c.stats with fills_received := c.stats.fills_received + 1 } m
      rw [hp.1, hp.2]
      simpa using h
    · simpa using h
    · have hp := Adv.process_order_ack_productions c m
      rw [hp.1, hp.2]
      exact h
    · simpa using h
    · exact h

/-- Helper: the invariant holds along any run of demo-client
operations. -/
theorem Adv.foldl_prodInv (ops : List Adv.Op) :
    ∀ c, Adv.prodInv c → Adv.prodInv (ops.foldl Adv.step c) := by
  induction ops with
  | nil => intro c h; exact h
  | cons op rest ih =>
    intro c h
    exact ih _ (Adv.step_prodInv c op h)

/-- C10 counterexample.  A freshly connected demo client satisfies the
invariant (0 = 0) but its reported `production_success_rate` is
`0 / max(1, 0) = 0`, not 100%, so the claim's "always 100%" fails
before the first production is sent. -/
theorem C10_cx_fresh_client_rate_not_full :
    (Adv.run true []).stats.productions_successful
      = (Adv.run true []).stats.productions_sent ∧
    Adv.production_success_rate (Adv.run true []).stats = 0 ∧
    (0 : ℚ) ≠ 1 := by
  refine ⟨by decide, ?_, by norm_num⟩
  norm_num [Adv.run, Adv.production_success_rate]

/-- C10 (amended).  In the demo client every `send_production` with a
websocket increments `productions_sent` and `productions_successful`
together without consulting any response, the invariant
`productions_successful = productions_sent` holds after every operation
sequence, and the reported production success rate is 100% whenever at
least one production has been counted; with none counted, the clamped
denominator `max(1, 0)` makes the summary report 0 instead. -/
theorem C10_amended_production_assumed_success :
    (∀ c : Adv.Client, c.hasWs = true →
        (Adv.send_production c).1.stats.productions_sent
            = c.stats.productions_sent + 1 ∧
        (Adv.send_production c).1.stats.productions_successful
            = c.stats.productions_successful + 1)
    ∧ (∀ (ws : Bool) (ops : List Adv.Op),
        (Adv.run ws ops).stats.productions_successful
          = (Adv.run ws ops).stats.productions_sent)
    ∧ (∀ st : Adv.Stats, st.productions_successful = st.productions_sent →
        1 ≤ st.productions_sent → Adv.production_success_rate st = 1) := by
  refine ⟨?_, ?_, ?_⟩
  · intro c h
    constructor <;> simp [Adv.send_production, h]
  · intro ws ops
    exact Adv.foldl_prodInv ops { hasWs := ws } rfl
  · intro st h1 h2
    unfold Adv.production_success_rate
    rw [h1, Nat.max_eq_right h2]
    have hne : (st.productions_sent : ℚ) ≠ 0 := by
      have hpos : 0 < st.productions_sent := h2
      exact_mod_cast hpos.ne'
    exact div_self hne

/-- C10 witness: after exactly one production the demo client's summary
reports a production success rate of 1 (100%), and a send with a
websocket bumps both counters. -/
theorem C10_amended_production_assumed_success_witness :
    ((Adv.send_production { hasWs := true }).1.stats.productions_sent
        = ({} : Adv.Stats).productions_sent + 1 ∧
      (Adv.send_production { hasWs := true }).1.stats.productions_successful
        = ({} : Adv.Stats).productions_successful + 1) ∧
    ({ productions_sent := 1, productions_successful := 1 } : Adv.Stats).productions_successful
      = ({ productions_sent := 1, productions_successful := 1 } : Adv.Stats).productions_sent ∧
    1 ≤ ({ productions_sent := 1, productions_successful := 1 } : Adv.Stats).productions_sent ∧
    Adv.production_success_rate { productions_sent := 1, productions_successful := 1 } = 1 :=
  ⟨C10_amended_production_assumed_success.1 { hasWs := true } rfl, rfl, by decide,
    C10_amended_production_assumed_success.2.2
      { productions_sent := 1, productions_successful := 1 } rfl (by decide)⟩

end StockMarket
